import Mathlib

/-!
Verification development for the StepFun realtime H5 demo clients
(`index.js`, `interactive.js`, `tool-call-example.js`).

The repository contains three WebSocket demo clients for a realtime
conversational API.  We shallowly embed the parts of the code the claims
are about:

* the server-event dispatcher with streaming accumulation
  (`RealtimeClient.handleResponse` in `interactive.js`, and the stateless
  logger `StepFunRealtimeClient.handleServerEvent` in `index.js`);
* the guarded `send` methods of `StepFunRealtimeClient` and
  `InteractiveRealtimeClient`;
* the outbound message constructors (`sendTextMessage`, `sendMessage`);
* the tool-call path of `tool-call-example.js`
  (`handleFunctionCall`, `getWeather`, `generateHoroscope`,
  `returnFunctionResult`), together with an executable model of the
  `JSON.parse` builtin on the JSON fragment this repository exercises.

Stateful handlers become explicit state-passing functions returning the
new state together with a list of observable effects (log lines, display
updates, playback requests, messages handed to the transport).
-/

namespace WandaRealtime

/-! ## A model of the `JSON.parse` builtin

`tool-call-example.js` calls `JSON.parse` on the accumulated tool-call
argument text (line 75).  We model the builtin by an executable
recursive-descent parser: objects (with the last duplicate key winning,
as in JS), arrays, double-quoted strings with the JSON escape sequences
(`\"`, `\\`, `\/`, `\b`, `\f`, `\n`, `\r`, `\t`, `\uXXXX`) and raw
control characters rejected, numbers per the JSON grammar with leading
zeros rejected, `true`, `false`, `null`.  A `none` result models the
`SyntaxError` exception `JSON.parse` throws on malformed input.

Two deliberate domain restrictions, so that every accepted document has
an exact embedding: number literals with a fraction or exponent part,
or integer literals of magnitude at least 2^53, denote IEEE-754 doubles
(inexact values whose arithmetic and printing are outside this
embedding) and are rejected; `\u` escapes in the UTF-16 surrogate range
(code units JS strings can hold but Unicode scalars cannot) are
rejected.  Such inputs fall outside every theorem hypothesised on a
successful parse; no theorem asserts anything about them. -/

inductive Json where
  | null : Json
  | bool (b : Bool) : Json
  | num (n : Int) : Json
  | str (s : String) : Json
  | arr (xs : List Json) : Json
  | obj (fields : List (String × Json)) : Json

/-- The `\x7b` character (opening curly brace). -/
def chLBrace : Char := Char.ofNat 123

/-- The `\x7d` character (closing curly brace). -/
def chRBrace : Char := Char.ofNat 125

/-- The double-quote character. -/
def chQuote : Char := Char.ofNat 34

def chComma : Char := Char.ofNat 44

def chColon : Char := Char.ofNat 58

def chLBrack : Char := Char.ofNat 91

def chRBrack : Char := Char.ofNat 93

/-- The backslash character. -/
def chBackslash : Char := Char.ofNat 92

/-- Skip JSON whitespace. -/
def skipWs : List Char → List Char
  | [] => []
  | c :: cs =>
    if c = ' ' ∨ c = Char.ofNat 9 ∨ c = Char.ofNat 10 ∨ c = Char.ofNat 13 then skipWs cs
    else c :: cs

/-- The value of a hexadecimal digit, in either case. -/
def hexVal (c : Char) : Option Nat :=
  if c.isDigit then some (c.toNat - 48)
  else if 'a' ≤ c ∧ c ≤ 'f' then some (c.toNat - 87)
  else if 'A' ≤ c ∧ c ≤ 'F' then some (c.toNat - 55)
  else none

/-- Parse the body of a double-quoted string (opening quote already
consumed), decoding the JSON escape sequences and rejecting raw control
characters, invalid escapes, unterminated strings, and `\u` escapes in
the surrogate range (see the section comment).  The fuel argument
strictly exceeds the input length at every call, so it never runs out
before the input does. -/
def parseStringBody : Nat → List Char → String → Option (String × List Char)
  | 0, _, _ => none
  | _, [], _ => none
  | fuel + 1, c :: cs, acc =>
    if c = chQuote then some (acc, cs)
    else if c = chBackslash then
      match cs with
      | [] => none
      | e :: es =>
        if e = chQuote then parseStringBody fuel es (acc.push chQuote)
        else if e = chBackslash then parseStringBody fuel es (acc.push chBackslash)
        else if e = '/' then parseStringBody fuel es (acc.push '/')
        else if e = 'b' then parseStringBody fuel es (acc.push (Char.ofNat 8))
        else if e = 'f' then parseStringBody fuel es (acc.push (Char.ofNat 12))
        else if e = 'n' then parseStringBody fuel es (acc.push (Char.ofNat 10))
        else if e = 'r' then parseStringBody fuel es (acc.push (Char.ofNat 13))
        else if e = 't' then parseStringBody fuel es (acc.push (Char.ofNat 9))
        else if e = 'u' then
          match es with
          | h1 :: h2 :: h3 :: h4 :: rest =>
            match hexVal h1, hexVal h2, hexVal h3, hexVal h4 with
            | some v1, some v2, some v3, some v4 =>
              let n := ((v1 * 16 + v2) * 16 + v3) * 16 + v4
              if 55296 ≤ n ∧ n ≤ 57343 then none
              else parseStringBody fuel rest (acc.push (Char.ofNat n))
            | _, _, _, _ => none
          | _ => none
        else none
    else if c.toNat < 32 then none
    else parseStringBody fuel cs (acc.push c)

/-- Parse the integer part of a JSON number: `0`, or a nonzero digit
followed by digits.  A leading zero followed by another digit is a
syntax error, as in the JSON grammar. -/
def parseIntDigits : List Char → Option (Nat × List Char)
  | [] => none
  | c :: cs =>
    if c = '0' then
      match cs with
      | [] => some (0, [])
      | d :: _ => if d.isDigit then none else some (0, cs)
    else if c.isDigit then
      some (((c :: cs).takeWhile Char.isDigit).foldl
              (fun acc ch => acc * 10 + (ch.toNat - 48)) 0,
            (c :: cs).dropWhile Char.isDigit)
    else none

/-- Parse a JSON number token (optional minus, integer part per the JSON
grammar).  A following `.`, `e` or `E`, or a magnitude of at least 2^53,
makes the literal denote a general IEEE-754 double and is rejected (a
deliberate domain restriction, see the section comment). -/
def parseNumberToken (input : List Char) : Option (Int × List Char) :=
  let signSplit : Bool × List Char :=
    match input with
    | c :: cs => if c = '-' then (true, cs) else (false, input)
    | [] => (false, input)
  match parseIntDigits signSplit.2 with
  | none => none
  | some (n, rest) =>
    if rest.head? = some '.' ∨ rest.head? = some 'e' ∨ rest.head? = some 'E' then none
    else if n < 2 ^ 53 then
      some ((if signSplit.1 then -(n : Int) else (n : Int)), rest)
    else none

/-- Record one object member, JS-style: a duplicate key overwrites the
earlier value in place (last duplicate wins, first-insertion order
kept), as `JSON.parse` does. -/
def insertField (fields : List (String × Json)) (k : String) (v : Json) :
    List (String × Json) :=
  if fields.any (fun p => p.1 = k) then
    fields.map fun p => if p.1 = k then (k, v) else p
  else fields ++ [(k, v)]

def dedupFields (raw : List (String × Json)) : List (String × Json) :=
  raw.foldl (fun acc p => insertField acc p.1 p.2) []

mutual

/-- Parse one JSON value.  `fuel` bounds the nesting depth; `parseJson`
supplies more fuel than any input can consume. -/
def parseValue : Nat → List Char → Option (Json × List Char)
  | 0, _ => none
  | fuel + 1, input =>
    match skipWs input with
    | [] => none
    | c :: cs =>
      if c = chQuote then
        (parseStringBody (cs.length + 1) cs "").map fun p => (Json.str p.1, p.2)
      else if c = chLBrace then
        match skipWs cs with
        | [] => none
        | d :: ds =>
          if d = chRBrace then some (Json.obj [], ds)
          else (parseMembers fuel (d :: ds)).map fun p => (Json.obj (dedupFields p.1), p.2)
      else if c = chLBrack then
        match skipWs cs with
        | [] => none
        | d :: ds =>
          if d = chRBrack then some (Json.arr [], ds)
          else (parseElements fuel (d :: ds)).map fun p => (Json.arr p.1, p.2)
      else if c = 't' then
        match cs with
        | 'r' :: 'u' :: 'e' :: rest => some (Json.bool true, rest)
        | _ => none
      else if c = 'f' then
        match cs with
        | 'a' :: 'l' :: 's' :: 'e' :: rest => some (Json.bool false, rest)
        | _ => none
      else if c = 'n' then
        match cs with
        | 'u' :: 'l' :: 'l' :: rest => some (Json.null, rest)
        | _ => none
      else if c = '-' ∨ c.isDigit then
        (parseNumberToken (c :: cs)).map fun p => (Json.num p.1, p.2)
      else none

/-- Parse the members of a nonempty JSON object, up to and including the
closing brace. -/
def parseMembers : Nat → List Char → Option (List (String × Json) × List Char)
  | 0, _ => none
  | fuel + 1, input =>
    match skipWs input with
    | [] => none
    | c :: cs =>
      if c = chQuote then
        match parseStringBody (cs.length + 1) cs "" with
        | none => none
        | some (key, rest1) =>
          match skipWs rest1 with
          | [] => none
          | d :: ds =>
            if d = chColon then
              match parseValue fuel ds with
              | none => none
              | some (v, rest2) =>
                match skipWs rest2 with
                | [] => none
                | e :: es =>
                  if e = chComma then
                    (parseMembers fuel es).map fun p => ((key, v) :: p.1, p.2)
                  else if e = chRBrace then some ([(key, v)], es)
                  else none
            else none
      else none

/-- Parse the elements of a nonempty JSON array, up to and including the
closing bracket. -/
def parseElements : Nat → List Char → Option (List Json × List Char)
  | 0, _ => none
  | fuel + 1, input =>
    match parseValue fuel input with
    | none => none
    | some (v, rest) =>
      match skipWs rest with
      | [] => none
      | e :: es =>
        if e = chComma then (parseElements fuel es).map fun p => (v :: p.1, p.2)
        else if e = chRBrack then some ([v], es)
        else none

end

/-- `JSON.parse`: parse a complete JSON document, rejecting trailing
garbage.  `none` models the thrown `SyntaxError`. -/
def parseJson (s : String) : Option Json :=
  match parseValue (s.length + 1) s.data with
  | none => none
  | some (v, rest) => if skipWs rest = [] then some v else none

/-- Field lookup on a parsed JSON object (JS property access `args.x`);
`none` is the JS `undefined`.  Parsed objects carry no duplicate keys
(`dedupFields`), so the first match is the only match. -/
def jsonGet (j : Json) (key : String) : Option Json :=
  match j with
  | Json.obj fields => fields.lookup key
  | _ => none

/-! ## JS string coercion and `JSON.stringify` -/

mutual

/-- JS `ToString` of a parsed-JSON value, as performed by a computed
property access `weatherData[location]` on a non-string key: `null`,
booleans and numbers print their literal, arrays join their elements
with commas (`Array.prototype.toString`, `null` elements becoming
empty), plain objects print `[object Object]`. -/
def jsToString : Json → String
  | Json.null => "null"
  | Json.bool true => "true"
  | Json.bool false => "false"
  | Json.num n => toString n
  | Json.str s => s
  | Json.arr xs => jsArrayJoin xs
  | Json.obj _ => "[object Object]"

/-- `Array.prototype.join` with the default comma separator; a `null`
element contributes the empty string. -/
def jsArrayJoin : List Json → String
  | [] => ""
  | [Json.null] => ""
  | [x] => jsToString x
  | Json.null :: xs => "," ++ jsArrayJoin xs
  | x :: xs => jsToString x ++ "," ++ jsArrayJoin xs

end

/-- JS `ToPropertyKey` for the value of a possibly-missing field: a
missing field is `undefined`, whose key string is `"undefined"`. -/
def propertyKey : Option Json → String
  | none => "undefined"
  | some j => jsToString j

/-- One lowercase hexadecimal digit. -/
def hexDigitChar (n : Nat) : Char :=
  if n < 10 then Char.ofNat (48 + n) else Char.ofNat (87 + n)

/-- The escaping `JSON.stringify` applies inside string values: quote
and backslash get a backslash, the named control characters get their
short escapes, the remaining control characters get `\u00xx` with
lowercase hex, everything else (including non-ASCII) is kept as is. -/
def escapeChar (c : Char) : String :=
  if c = chQuote then String.mk [chBackslash, chQuote]
  else if c = chBackslash then String.mk [chBackslash, chBackslash]
  else if c = Char.ofNat 8 then String.mk [chBackslash, 'b']
  else if c = Char.ofNat 12 then String.mk [chBackslash, 'f']
  else if c = Char.ofNat 10 then String.mk [chBackslash, 'n']
  else if c = Char.ofNat 13 then String.mk [chBackslash, 'r']
  else if c = Char.ofNat 9 then String.mk [chBackslash, 't']
  else if c.toNat < 32 then
    String.mk [chBackslash, 'u', '0', '0',
               hexDigitChar (c.toNat / 16), hexDigitChar (c.toNat % 16)]
  else String.mk [c]

/-- A JSON string literal as `JSON.stringify` emits it. -/
def jstr (s : String) : String :=
  "\"" ++ String.join (s.data.map escapeChar) ++ "\""

mutual

/-- `JSON.stringify` of a parsed-JSON value (such values contain no
functions or `undefined`, so no key or element is ever dropped
here). -/
def stringifyJson : Json → String
  | Json.null => "null"
  | Json.bool true => "true"
  | Json.bool false => "false"
  | Json.num n => toString n
  | Json.str s => jstr s
  | Json.arr xs => "[" ++ stringifyElems xs ++ "]"
  | Json.obj fields => "\x7b" ++ stringifyFields fields ++ "\x7d"

def stringifyElems : List Json → String
  | [] => ""
  | [x] => stringifyJson x
  | x :: xs => stringifyJson x ++ "," ++ stringifyElems xs

def stringifyFields : List (String × Json) → String
  | [] => ""
  | [(k, v)] => jstr k ++ ":" ++ stringifyJson v
  | (k, v) :: fs => jstr k ++ ":" ++ stringifyJson v ++ "," ++ stringifyFields fs

end

/-! ## Outbound messages

The tagged messages the clients hand to `this.send(...)` /
`this.ws.send(JSON.stringify(...))`.  One constructor per wire shape
appearing in the scripts. -/

inductive OutboundEvent where
  /-- `\x7btype:'session.update', session:\x7b...\x7d\x7d` (session payload opaque). -/
  | sessionUpdate : OutboundEvent
  /-- `\x7btype:'conversation.item.create', item:\x7btype:'message', role:'user',
  content:[\x7btype:'input_text', text\x7d]\x7d\x7d`. -/
  | itemUserMessage (text : String) : OutboundEvent
  /-- `\x7btype:'conversation.item.create', item:\x7btype:'function_call_output',
  call_id, output\x7d\x7d`.  The output field holds `JSON.stringify(result)`;
  `none` models the JS `undefined` (`JSON.stringify` of a function), in
  which case the key is omitted from the serialized message. -/
  | itemFunctionOutput (callId : String) (output : Option String) : OutboundEvent
  /-- `\x7btype:'response.create'\x7d`, optionally with
  `response:\x7bmodalities\x7d`. -/
  | responseCreate (modalities : Option (List String)) : OutboundEvent
  /-- `\x7btype:'input_audio_buffer.append', audio\x7d`. -/
  | audioAppend (audio : String) : OutboundEvent
  /-- `\x7btype:'input_audio_buffer.commit'\x7d`. -/
  | bufferCommit : OutboundEvent
  /-- `\x7btype:'input_audio_buffer.clear'\x7d`. -/
  | bufferClear : OutboundEvent
deriving DecidableEq

/-! ## The guarded send methods (`index.js` line 186, `interactive.js` line 95)

Both methods take the current value of the `isConnected` flag and the
message; the outcome records what reached the transport (`ws.send`) and
what warnings were printed. -/

structure SendOutcome where
  /-- Messages passed on to `this.ws.send`. -/
  transport : List OutboundEvent
  /-- Warning lines printed by the method itself. -/
  warnings : List String
deriving DecidableEq

/-- `StepFunRealtimeClient.send` (`index.js` lines 186-193): when not
connected it prints `WebSocket 未连接` and returns without touching the
transport. -/
def stepfunSend (isConnected : Bool) (ev : OutboundEvent) : SendOutcome :=
  if !isConnected then { transport := [], warnings := ["WebSocket 未连接"] }
  else { transport := [ev], warnings := [] }

/-- `InteractiveRealtimeClient.send` (`interactive.js` lines 95-99): sends
only when connected, silently does nothing otherwise. -/
def interactiveSend (isConnected : Bool) (ev : OutboundEvent) : SendOutcome :=
  if isConnected then { transport := [ev], warnings := [] }
  else { transport := [], warnings := [] }

/-! ## Outbound message constructors -/

/-- `StepFunRealtimeClient.sendTextMessage` (`index.js` lines 128-154):
the two messages it passes to `this.send`, in order.  No validation of
`text` is performed. -/
def sendTextMessage (text : String) : List OutboundEvent :=
  [OutboundEvent.itemUserMessage text, OutboundEvent.responseCreate (some ["text"])]

/-- `InteractiveRealtimeClient.sendMessage` (`interactive.js` lines
79-93): the two messages it passes to `this.send`, in order.  No
validation of `text` is performed. -/
def sendMessage (text : String) : List OutboundEvent :=
  [OutboundEvent.itemUserMessage text, OutboundEvent.responseCreate (some ["text"])]

/-- What the interactive CLI read-line callback does with one input line
(`interactive.js` lines 140-156): quit on `/quit` and `/exit`, call
`sendMessage` on non-empty trimmed input, re-prompt otherwise. -/
inductive CLIAction where
  | quit : CLIAction
  | sendInput (text : String) : CLIAction
  | prompt : CLIAction
deriving DecidableEq

/-- Whitespace as trimmed by `String.prototype.trim` (the repository
only ever feeds ASCII whitespace). -/
def isWsChar (c : Char) : Bool :=
  c = ' ' ∨ c = Char.ofNat 9 ∨ c = Char.ofNat 10 ∨ c = Char.ofNat 13

/-- `line.trim` of JS: drop whitespace from both ends. -/
def jsTrim (s : String) : String :=
  String.mk (((s.data.dropWhile isWsChar).reverse.dropWhile isWsChar).reverse)

def rlOnLine (line : String) : CLIAction :=
  let input := jsTrim line
  if input = "/quit" ∨ input = "/exit" then CLIAction.quit
  else if input ≠ "" then CLIAction.sendInput input
  else CLIAction.prompt

/-! ## Tool-call handling (`tool-call-example.js`) -/

/-- The own-property entries of the `weatherData` table: the JS object
`\x7btemperature, condition, humidity\x7d`. -/
structure Weather where
  temperature : Int
  condition : String
  humidity : Int
deriving DecidableEq

/-- The string-keyed properties every plain JS object literal inherits
from `Object.prototype`.  Each names a truthy value (eleven methods, and
the `__proto__` accessor yielding the `Object.prototype` object itself),
so `weatherData[location] || default` returns the inherited member, not
the default, for these keys. -/
def objectProtoMembers : List String :=
  ["constructor", "hasOwnProperty", "isPrototypeOf", "propertyIsEnumerable",
   "toLocaleString", "toString", "valueOf",
   "__defineGetter__", "__defineSetter__", "__lookupGetter__", "__lookupSetter__",
   "__proto__"]

/-- What `weatherData[location] || \x7b...\x7d` can evaluate to: an own
(or default) weather entry, or a truthy member inherited from
`Object.prototype` through the prototype chain. -/
inductive WeatherResult where
  | weather (w : Weather) : WeatherResult
  | protoMember (name : String) : WeatherResult
deriving DecidableEq

/-- `ToolCallClient.getWeather` (`tool-call-example.js` lines 99-112):
`weatherData[location] || default`.  The three own keys return their
table entries; a key naming an `Object.prototype` member returns that
inherited truthy value; every other key yields `undefined`, which is
falsy, so the fixed default is returned. -/
def getWeather (location : String) : WeatherResult :=
  if location = "北京" then
    WeatherResult.weather { temperature := 15, condition := "晴朗", humidity := 45 }
  else if location = "上海" then
    WeatherResult.weather { temperature := 20, condition := "多云", humidity := 60 }
  else if location = "深圳" then
    WeatherResult.weather { temperature := 25, condition := "小雨", humidity := 75 }
  else if location ∈ objectProtoMembers then WeatherResult.protoMember location
  else WeatherResult.weather { temperature := 18, condition := "未知", humidity := 50 }

/-- The five fortune strings of `generateHoroscope`. -/
def fortunes : List String :=
  ["今天是充满机遇的一天，保持积极心态。",
   "财运不错，但要注意理性消费。",
   "感情运势上升，适合表达心意。",
   "工作中可能遇到挑战，保持冷静应对。",
   "健康状况良好，适合户外活动。"]

/-- The four lucky colours of `generateHoroscope`. -/
def luckyColors : List String := ["红色", "蓝色", "绿色", "紫色"]

/-- The environment `generateHoroscope` samples: the three
`Math.floor(Math.random() * n)` draws (each strictly below its bound
because `Math.random() < 1`) and the `new Date().toLocaleDateString`
string. -/
structure RandomEnv where
  fortuneIdx : Fin 5
  luckyNumber : Fin 100
  colorIdx : Fin 4
  dateStr : String

/-- Result of the mock horoscope: the JS object literal returned by
`generateHoroscope`.  The `sign` field holds `args.sign` verbatim —
whatever JSON value arrived, or `undefined` (`none`) when the field is
missing. -/
structure Horoscope where
  sign : Option Json
  date : String
  fortune : String
  luckyNumber : Nat
  luckyColor : String

/-- `ToolCallClient.generateHoroscope` (`tool-call-example.js` lines
115-133), with the random draws and the current date supplied by the
environment. -/
def generateHoroscope (env : RandomEnv) (sign : Option Json) : Horoscope :=
  { sign := sign
    date := env.dateStr
    fortune := fortunes.getD env.fortuneIdx.val ""
    luckyNumber := env.luckyNumber.val
    luckyColor := luckyColors.getD env.colorIdx.val "" }

/-- The values the `switch (name)` in `handleFunctionCall` can store in
`result`. -/
inductive ToolResult where
  | weatherLookup (r : WeatherResult) : ToolResult
  | horoscope (h : Horoscope) : ToolResult
  /-- The default branch value `\x7berror: '未知函数'\x7d`. -/
  | errorResult (msg : String) : ToolResult

/-- `JSON.stringify` of a weather entry. -/
def serializeWeather (w : Weather) : String :=
  "\x7b" ++ jstr "temperature" ++ ":" ++ toString w.temperature ++ ","
    ++ jstr "condition" ++ ":" ++ jstr w.condition ++ ","
    ++ jstr "humidity" ++ ":" ++ toString w.humidity ++ "\x7d"

/-- `JSON.stringify` of the horoscope object literal: when `sign` is
`undefined` the key is omitted, otherwise the arrived JSON value is
serialized in place; insertion order of the literal is kept. -/
def serializeHoroscope (h : Horoscope) : String :=
  "\x7b"
    ++ (match h.sign with
        | none => ""
        | some v => jstr "sign" ++ ":" ++ stringifyJson v ++ ",")
    ++ jstr "date" ++ ":" ++ jstr h.date ++ ","
    ++ jstr "fortune" ++ ":" ++ jstr h.fortune ++ ","
    ++ jstr "lucky_number" ++ ":" ++ toString h.luckyNumber ++ ","
    ++ jstr "lucky_color" ++ ":" ++ jstr h.luckyColor ++ "\x7d"

/-- `JSON.stringify(result)` as called in `returnFunctionResult`
(`tool-call-example.js` line 144).  A result that is an inherited
`Object.prototype` method is a function, whose `JSON.stringify` is the
JS `undefined` (`none`); the inherited `__proto__` accessor yields the
`Object.prototype` object, which stringifies to the empty object. -/
def serializeToolResult : ToolResult → Option String
  | ToolResult.weatherLookup (WeatherResult.weather w) => some (serializeWeather w)
  | ToolResult.weatherLookup (WeatherResult.protoMember name) =>
      if name = "__proto__" then some "\x7b\x7d" else none
  | ToolResult.horoscope h => some (serializeHoroscope h)
  | ToolResult.errorResult msg =>
      some ("\x7b" ++ jstr "error" ++ ":" ++ jstr msg ++ "\x7d")

/-- `ToolCallClient.returnFunctionResult` (`tool-call-example.js` lines
136-152): the messages it passes to `this.send`, in order — one
`conversation.item.create` with a `function_call_output` item, then one
plain `response.create`. -/
def returnFunctionResult (callId : String) (result : ToolResult) : List OutboundEvent :=
  [OutboundEvent.itemFunctionOutput callId (serializeToolResult result),
   OutboundEvent.responseCreate none]

/-- The `response.function_call_arguments.done` event payload fields
used by `handleFunctionCall`. -/
structure FunctionCallDoneEvent where
  name : String
  callId : String
  arguments : String

/-- The `switch (name)` of `handleFunctionCall` (`tool-call-example.js`
lines 82-93): dispatch on the function name.  `get_weather` coerces
`args.location` to a property key before the table lookup;
`generate_horoscope` embeds `args.sign` verbatim; the default branch
produces the built-in `\x7berror: '未知函数'\x7d` result. -/
def dispatchFunction (env : RandomEnv) (name : String) (args : Json) : ToolResult :=
  if name = "get_weather" then
    ToolResult.weatherLookup (getWeather (propertyKey (jsonGet args "location")))
  else if name = "generate_horoscope" then
    ToolResult.horoscope (generateHoroscope env (jsonGet args "sign"))
  else ToolResult.errorResult "未知函数"

/-- `ToolCallClient.handleFunctionCall` (`tool-call-example.js` lines
73-97): parse the accumulated argument text with `JSON.parse`, dispatch
on the name, submit the result via `returnFunctionResult`.  The
`JSON.parse` call on line 75 is not wrapped in `try/catch`, so a parse
failure is a thrown `SyntaxError` that propagates uncaught (modelled by
`none`): no message is emitted. -/
def handleFunctionCall (env : RandomEnv) (ev : FunctionCallDoneEvent) :
    Option (List OutboundEvent) :=
  match parseJson ev.arguments with
  | none => none
  | some args => some (returnFunctionResult ev.callId (dispatchFunction env ev.name args))

/-! ## Server events and the event dispatchers

`RealtimeClient.handleResponse` (`interactive.js`, browser part) is the
stateful dispatcher: it accumulates text, audio-chunk and transcript
deltas into per-response accumulators.  Audio deltas arrive as base64
strings and are decoded chunk-wise by `atob` inside `playAudio`; since
`atob` inverts the encoding per chunk, a chunk is modelled as its
decoded byte list.  `StepFunRealtimeClient.handleServerEvent`
(`index.js`) is a stateless logger over the same event vocabulary. -/

inductive ServerEvent where
  | sessionCreated : ServerEvent
  | sessionUpdated : ServerEvent
  | conversationItemCreated : ServerEvent
  | responseCreated : ServerEvent
  | outputItemAdded : ServerEvent
  | contentPartAdded : ServerEvent
  /-- `response.text.delta` with its `delta` field. -/
  | textDelta (delta : String) : ServerEvent
  /-- `response.text.done` with its `text` field. -/
  | textDone (text : String) : ServerEvent
  /-- `response.audio.delta`; the chunk is the byte list the base64
  `delta` field decodes to. -/
  | audioDelta (chunk : List Nat) : ServerEvent
  | audioDone : ServerEvent
  | transcriptDelta (delta : String) : ServerEvent
  | transcriptDone (transcript : String) : ServerEvent
  | contentPartDone : ServerEvent
  | outputItemDone : ServerEvent
  | responseDone : ServerEvent
  | speechStarted : ServerEvent
  | speechStopped : ServerEvent
  | bufferCommitted : ServerEvent
  | rateLimitsUpdated : ServerEvent
  /-- `error` with its message. -/
  | errorEvent (msg : String) : ServerEvent
  /-- Any tag not in the routing table, with the tag and the
  stringified payload. -/
  | unknown (tag : String) (payload : String) : ServerEvent
deriving DecidableEq

/-- Observable side effects of handling one event: `this.log` lines (with
their css kind), `console`-only lines, stdout writes, display updates and
playback requests. -/
inductive Effect where
  | log (msg : String) (kind : String) : Effect
  | stdoutWrite (s : String) : Effect
  | updateTextDisplay (text : String) : Effect
  | playAudio (chunks : List (List Nat)) : Effect
deriving DecidableEq

/-- The per-response accumulators of `RealtimeClient`
(`interactive.js` browser part, constructor lines 177-179). -/
structure RCState where
  currentTextResponse : String
  currentAudioChunks : List (List Nat)
  currentTranscript : String
deriving DecidableEq

/-- The accumulators as initialised in the constructor. -/
def rcInit : RCState :=
  { currentTextResponse := "", currentAudioChunks := [], currentTranscript := "" }

/-- `RealtimeClient.handleResponse` (`interactive.js` lines 536-656):
one dispatch step, returning the new accumulator state and the effects.
The `responseTimeout` bookkeeping at the top of the method is a timer
concern outside the model.  Branches that only call `console.log` with
the annotation `[响应]` prefix are modelled without that shared prefix
line. -/
def handleResponse (s : RCState) (ev : ServerEvent) : RCState × List Effect :=
  match ev with
  | ServerEvent.errorEvent msg => (s, [Effect.log ("❌ 错误: " ++ msg) "error"])
  | ServerEvent.sessionCreated => (s, [Effect.log "✓ StepFun 会话已创建" "system"])
  | ServerEvent.sessionUpdated => (s, [Effect.log "✓ 会话配置已更新" "system"])
  | ServerEvent.conversationItemCreated => (s, [Effect.log "📝 对话项已创建" "system"])
  | ServerEvent.responseCreated =>
      ({ currentTextResponse := "", currentAudioChunks := [], currentTranscript := "" },
       [Effect.log "🤖 AI 开始响应..." "system"])
  | ServerEvent.outputItemAdded => (s, [Effect.log "📤 输出项已添加" "system"])
  | ServerEvent.contentPartAdded => (s, [Effect.log "📄 内容部分已添加" "system"])
  | ServerEvent.textDelta d =>
      ({ s with currentTextResponse := s.currentTextResponse ++ d },
       [Effect.updateTextDisplay (s.currentTextResponse ++ d)])
  | ServerEvent.textDone t =>
      (s, [Effect.log "✓ 文本生成完成" "system", Effect.log ("📝 完整文本: " ++ t) "text"])
  | ServerEvent.audioDelta c =>
      ({ s with currentAudioChunks := s.currentAudioChunks ++ [c] },
       [Effect.log ("🔊 收到音频块 (" ++ toString (s.currentAudioChunks.length + 1) ++ ")")
          "system"])
  | ServerEvent.audioDone =>
      (s, [Effect.log ("✓ 音频生成完成 (共 " ++ toString s.currentAudioChunks.length ++ " 块)")
             "system"]
          ++ if s.currentAudioChunks.length > 0 then [Effect.playAudio s.currentAudioChunks]
             else [])
  | ServerEvent.transcriptDelta d =>
      ({ s with currentTranscript := s.currentTranscript ++ d },
       [Effect.log ("📝 转录: " ++ (s.currentTranscript ++ d)) "transcript"])
  | ServerEvent.transcriptDone tr =>
      (s, [Effect.log ("✓ 转录完成: " ++ tr) "transcript"])
  | ServerEvent.contentPartDone => (s, [Effect.log "✓ 内容部分完成" "system"])
  | ServerEvent.outputItemDone => (s, [Effect.log "✓ 输出项完成" "system"])
  | ServerEvent.responseDone =>
      (s, [Effect.log "✅ 响应完全完成" "system", Effect.log "─────────────────────" "system"])
  | ServerEvent.speechStarted => (s, [Effect.log "🎤 检测到语音开始" "system"])
  | ServerEvent.speechStopped => (s, [Effect.log "🎤 检测到语音结束" "system"])
  | ServerEvent.bufferCommitted => (s, [Effect.log "✓ 音频缓冲区已提交" "system"])
  | ServerEvent.rateLimitsUpdated => (s, [Effect.log "速率限制: ..." "console"])
  | ServerEvent.unknown tag payload =>
      (s, [Effect.log ("[" ++ tag ++ "] " ++ payload) "response"])

/-- Run `handleResponse` over a list of inbound events in arrival order,
tracking the accumulator state. -/
def runState : RCState → List ServerEvent → RCState
  | s, [] => s
  | s, ev :: evs => runState (handleResponse s ev).1 evs

/-- The chunk merge inside `RealtimeClient.playAudio` (`interactive.js`
lines 694-700): the decoded chunks are copied one after another, at
increasing offsets, into one combined byte array. -/
def playAudioCombine (chunks : List (List Nat)) : List Nat :=
  chunks.foldl (fun combined buffer => combined ++ buffer) []

/-- `StepFunRealtimeClient.handleServerEvent` (`index.js` lines 42-100):
a stateless switch that only logs.  Console payload arguments beyond the
literal text are elided, except for the `delta`, `text` and stringified
unknown-event payloads, which the claims mention. -/
def stepfunHandleServerEvent (ev : ServerEvent) : List Effect :=
  match ev with
  | ServerEvent.sessionCreated => [Effect.log "会话已创建: ..." "console"]
  | ServerEvent.sessionUpdated => [Effect.log "会话已更新" "console"]
  | ServerEvent.conversationItemCreated => [Effect.log "对话项已创建" "console"]
  | ServerEvent.responseCreated => [Effect.log "响应开始生成..." "console"]
  | ServerEvent.textDelta d => [Effect.stdoutWrite d]
  | ServerEvent.textDone t => [Effect.log ("文本生成完成: " ++ t) "console"]
  | ServerEvent.audioDelta _ => [Effect.log "收到音频数据块" "console"]
  | ServerEvent.audioDone => [Effect.log "音频生成完成" "console"]
  | ServerEvent.responseDone => [Effect.log "响应完成" "console", Effect.log "---" "console"]
  | ServerEvent.speechStarted => [Effect.log "检测到用户开始说话" "console"]
  | ServerEvent.speechStopped => [Effect.log "检测到用户停止说话" "console"]
  | ServerEvent.errorEvent msg => [Effect.log ("服务器错误: " ++ msg) "console"]
  | ServerEvent.unknown _ payload => [Effect.log ("其他事件: " ++ payload) "console"]
  | _ => [Effect.log "其他事件: ..." "console"]

/-! ## Helper lemmas -/

/-- Folding string append from any accumulator is the accumulator
followed by the join. -/
theorem foldl_append_eq_join (ds : List String) (acc : String) :
    List.foldl (fun r s => r ++ s) acc ds = acc ++ String.join ds := by
  induction ds generalizing acc with
  | nil => simp [String.join]
  | cons d ds ih =>
    show List.foldl (fun r s => r ++ s) (acc ++ d) ds = acc ++ String.join (d :: ds)
    rw [ih]
    have h2 : String.join (d :: ds) = d ++ String.join ds := by
      show List.foldl (fun r s => r ++ s) ("" ++ d) ds = d ++ String.join ds
      rw [ih]
      rfl
    rw [h2, String.append_assoc]

theorem string_join_cons (d : String) (ds : List String) :
    String.join (d :: ds) = d ++ String.join ds := by
  show List.foldl (fun r s => r ++ s) ("" ++ d) ds = d ++ String.join ds
  rw [foldl_append_eq_join]
  rfl

/-- Processing a run of text deltas appends their join to the text
accumulator and touches nothing else. -/
theorem runState_textDeltas (ds : List String) (s : RCState) :
    runState s (List.map ServerEvent.textDelta ds)
      = { s with currentTextResponse := s.currentTextResponse ++ String.join ds } := by
  induction ds generalizing s with
  | nil => simp [runState, String.join]
  | cons d ds ih =>
    show runState { s with currentTextResponse := s.currentTextResponse ++ d }
        (List.map ServerEvent.textDelta ds)
      = { s with currentTextResponse := s.currentTextResponse ++ String.join (d :: ds) }
    rw [ih, string_join_cons, String.append_assoc]

/-- Processing a run of audio deltas appends the chunks, in arrival
order, to the audio accumulator and touches nothing else. -/
theorem runState_audioDeltas (cs : List (List Nat)) (s : RCState) :
    runState s (List.map ServerEvent.audioDelta cs)
      = { s with currentAudioChunks := s.currentAudioChunks ++ cs } := by
  induction cs generalizing s with
  | nil => simp [runState]
  | cons c cs ih =>
    show runState { s with currentAudioChunks := s.currentAudioChunks ++ [c] }
        (List.map ServerEvent.audioDelta cs)
      = { s with currentAudioChunks := s.currentAudioChunks ++ (c :: cs) }
    rw [ih, List.append_assoc]
    rfl

/-- `runState` splits across an append of event lists. -/
theorem runState_append (l1 l2 : List ServerEvent) (s : RCState) :
    runState s (l1 ++ l2) = runState (runState s l1) l2 := by
  induction l1 generalizing s with
  | nil => rfl
  | cons e es ih => exact ih (handleResponse s e).1

/-- The `playAudio` merge is list concatenation. -/
theorem playAudioCombine_eq_flatten (chunks : List (List Nat)) :
    playAudioCombine chunks = chunks.flatten := by
  have h : ∀ (l : List (List Nat)) (acc : List Nat),
      List.foldl (fun combined buffer => combined ++ buffer) acc l = acc ++ l.flatten := by
    intro l
    induction l with
    | nil => intro acc; simp
    | cons x xs ih =>
      intro acc
      simp only [List.foldl_cons, List.flatten_cons, ih, List.append_assoc]
  simpa using h chunks []

/-- A default environment for evaluating the tool-call path on concrete
inputs. -/
def envDefault : RandomEnv :=
  { fortuneIdx := 0, luckyNumber := 7, colorIdx := 1, dateStr := "2026/10/12" }

/-! ## Claims -/

/-- C1: For every sequence of `response.text.delta` events followed by a
`response.text.done` event delivered to `RealtimeClient.handleResponse`
after a `response.created`, the text accumulator sealed at the done
event equals the concatenation of the delta fragments in arrival order
(e.g. deltas `Hel` then `lo` yield `Hello`). -/
theorem text_deltas_concat (s : RCState) (ds : List String) (t : String) :
    (runState s (ServerEvent.responseCreated ::
        (List.map ServerEvent.textDelta ds ++ [ServerEvent.textDone t]))).currentTextResponse
      = String.join ds := by
  have h1 : runState s (ServerEvent.responseCreated ::
        (List.map ServerEvent.textDelta ds ++ [ServerEvent.textDone t]))
      = runState (runState rcInit (List.map ServerEvent.textDelta ds))
          [ServerEvent.textDone t] := by
    show runState rcInit (List.map ServerEvent.textDelta ds ++ [ServerEvent.textDone t]) = _
    exact runState_append _ _ _
  rw [h1, runState_textDeltas]
  rfl

/-- C2: audio deltas accumulate in arrival order, and the chunk merge of
`playAudio` reconstructs the original byte stream: splitting any byte
stream into chunks, feeding them as `response.audio.delta` events and
merging the accumulated list yields the same bytes; at
`response.audio.done` the playback request carries exactly the
accumulated list. -/
theorem audio_roundtrip (s : RCState) (bytes : List Nat) (chunks : List (List Nat))
    (h : chunks.flatten = bytes) :
    (runState s (ServerEvent.responseCreated ::
        (List.map ServerEvent.audioDelta chunks ++ [ServerEvent.audioDone]))).currentAudioChunks
      = chunks
    ∧ playAudioCombine chunks = bytes
    ∧ (chunks ≠ [] →
        Effect.playAudio chunks ∈
          (handleResponse (runState s (ServerEvent.responseCreated ::
              List.map ServerEvent.audioDelta chunks)) ServerEvent.audioDone).2) := by
  have hrun : runState s (ServerEvent.responseCreated :: List.map ServerEvent.audioDelta chunks)
      = { currentTextResponse := "", currentAudioChunks := chunks, currentTranscript := "" } := by
    show runState rcInit (List.map ServerEvent.audioDelta chunks) = _
    rw [runState_audioDeltas]
    rfl
  refine ⟨?_, ?_, ?_⟩
  · have h2 : runState s (ServerEvent.responseCreated ::
          (List.map ServerEvent.audioDelta chunks ++ [ServerEvent.audioDone]))
        = runState (runState s (ServerEvent.responseCreated ::
            List.map ServerEvent.audioDelta chunks)) [ServerEvent.audioDone] := by
      show runState rcInit (List.map ServerEvent.audioDelta chunks ++ [ServerEvent.audioDone])
          = _
      exact runState_append _ _ _
    rw [h2, hrun]
    rfl
  · rw [playAudioCombine_eq_flatten, h]
  · intro hne
    have hl : 0 < chunks.length := List.length_pos.mpr hne
    rw [hrun]
    simp [handleResponse, hl]

/-- C2 witness: byte stream `[1, 2, 3]` split as `[[1, 2], [3]]`. -/
theorem audio_roundtrip_witness :
    ([[1, 2], [3]] : List (List Nat)).flatten = [1, 2, 3]
    ∧ ((runState rcInit (ServerEvent.responseCreated ::
          (List.map ServerEvent.audioDelta [[1, 2], [3]]
            ++ [ServerEvent.audioDone]))).currentAudioChunks = [[1, 2], [3]]
       ∧ playAudioCombine [[1, 2], [3]] = [1, 2, 3]
       ∧ (([[1, 2], [3]] : List (List Nat)) ≠ [] →
           Effect.playAudio [[1, 2], [3]] ∈
             (handleResponse (runState rcInit (ServerEvent.responseCreated ::
                 List.map ServerEvent.audioDelta [[1, 2], [3]]))
               ServerEvent.audioDone).2)) :=
  ⟨by decide, audio_roundtrip rcInit [1, 2, 3] [[1, 2], [3]] (by decide)⟩

/-- C3 counterexample: `InteractiveRealtimeClient.send` while not
connected drops the message without printing any warning, so the claim
that sending while not connected is "a no-op with a warning" fails on
this client at the concrete message `你好`. -/
theorem send_disconnected_no_warning_counterexample :
    (interactiveSend false (OutboundEvent.itemUserMessage "你好")).transport = []
    ∧ (interactiveSend false (OutboundEvent.itemUserMessage "你好")).warnings = [] :=
  ⟨rfl, rfl⟩

/-- C3 (amended): for every outbound message, sending while not connected
never reaches the transport in either client; `StepFunRealtimeClient`
additionally prints the warning `WebSocket 未连接`, while
`InteractiveRealtimeClient` drops the message silently. -/
theorem send_disconnected_never_reaches_transport (ev : OutboundEvent) :
    (stepfunSend false ev).transport = []
    ∧ (stepfunSend false ev).warnings = ["WebSocket 未连接"]
    ∧ (interactiveSend false ev).transport = []
    ∧ (interactiveSend false ev).warnings = [] :=
  ⟨rfl, rfl, rfl, rfl⟩

/-- C4: an inbound event whose tag is not in the routing table is handled
by the `default` catch-all branch in both dispatchers: no accumulator
state changes, exactly the catch-all log is produced (both dispatchers
are total functions, so no error is raised). -/
theorem unknown_tag_catch_all (s : RCState) (tag payload : String) :
    (handleResponse s (ServerEvent.unknown tag payload)).1 = s
    ∧ (handleResponse s (ServerEvent.unknown tag payload)).2
        = [Effect.log ("[" ++ tag ++ "] " ++ payload) "response"]
    ∧ stepfunHandleServerEvent (ServerEvent.unknown tag payload)
        = [Effect.log ("其他事件: " ++ payload) "console"] :=
  ⟨rfl, rfl, rfl⟩

/-- C5 counterexample: with a response already open (a `response.created`
followed by a text delta, leaving `Hel` accumulated), a second
`response.created` is handled exactly like the first — the ordinary
start log and an unconditional reset — so the partial text is silently
discarded and no protocol-violation condition is signalled. -/
theorem second_response_created_silently_accepted :
    (runState rcInit [ServerEvent.responseCreated,
        ServerEvent.textDelta "Hel"]).currentTextResponse = "Hel"
    ∧ handleResponse (runState rcInit [ServerEvent.responseCreated, ServerEvent.textDelta "Hel"])
        ServerEvent.responseCreated
      = ({ currentTextResponse := "", currentAudioChunks := [], currentTranscript := "" },
         [Effect.log "🤖 AI 开始响应..." "system"]) :=
  ⟨rfl, rfl⟩

/-- C5 (amended): the dispatcher keeps no open-response flag; every
`response.created` — whatever the current state — unconditionally resets
all three accumulators and emits only the ordinary start log, so a
second `response.created` before a `response.done` is silently accepted
(discarding partial data) rather than signalled as a protocol
violation. -/
theorem response_created_unconditional_reset (s : RCState) :
    handleResponse s ServerEvent.responseCreated
      = ({ currentTextResponse := "", currentAudioChunks := [], currentTranscript := "" },
         [Effect.log "🤖 AI 开始响应..." "system"]) :=
  rfl

/-- The `response.function_call_arguments.done` event whose accumulated
argument text `\x7b"loc` is not valid JSON. -/
def malformedEvent : FunctionCallDoneEvent :=
  { name := "get_weather", callId := "call_9", arguments := "\x7b\"loc" }

/-- C7 (code bug): on argument text that fails to parse, the un-guarded
`JSON.parse` on line 75 of `tool-call-example.js` throws, the exception
propagates uncaught (modelled by `none`), and no tool result of any
shape is ever submitted — contradicting the spec requirement that a
`MalformedArguments` failure still returns an error-shaped result to the
model. -/
theorem malformed_arguments_uncaught :
    handleFunctionCall envDefault malformedEvent = none :=
  rfl

/-- C8: for every call event whose arguments parse but whose function
name has no registered handler, the dispatcher resolves the call with
the built-in `\x7berror: '未知函数'\x7d` result, submitted as the tool
result and followed by the `response.create`, rather than failing the
call. -/
theorem unknown_function_error_result (env : RandomEnv) (ev : FunctionCallDoneEvent)
    (args : Json) (h : parseJson ev.arguments = some args)
    (h1 : ev.name ≠ "get_weather") (h2 : ev.name ≠ "generate_horoscope") :
    handleFunctionCall env ev
      = some [OutboundEvent.itemFunctionOutput ev.callId
                (serializeToolResult (ToolResult.errorResult "未知函数")),
              OutboundEvent.responseCreate none] := by
  simp [handleFunctionCall, h, dispatchFunction, h1, h2, returnFunctionResult]

/-- The unregistered-function call event used as concrete input. -/
def unknownFnEvent : FunctionCallDoneEvent :=
  { name := "get_time", callId := "call_2", arguments := "\x7b\x7d" }

/-- C8 witness: the unregistered function `get_time` with arguments
`\x7b\x7d`. -/
theorem unknown_function_error_result_witness :
    parseJson unknownFnEvent.arguments = some (Json.obj [])
    ∧ unknownFnEvent.name ≠ "get_weather"
    ∧ unknownFnEvent.name ≠ "generate_horoscope"
    ∧ handleFunctionCall envDefault unknownFnEvent
        = some [OutboundEvent.itemFunctionOutput unknownFnEvent.callId
                  (serializeToolResult (ToolResult.errorResult "未知函数")),
                OutboundEvent.responseCreate none] :=
  ⟨rfl, by decide, by decide,
   unknown_function_error_result envDefault unknownFnEvent (Json.obj [])
     rfl (by decide) (by decide)⟩

/-- C9 counterexample: `sendMessage ""` constructs and hands over a user
message with empty text — nothing rejects it, and while connected the
empty-text item reaches the transport. -/
theorem empty_user_message_not_rejected :
    sendMessage ""
      = [OutboundEvent.itemUserMessage "", OutboundEvent.responseCreate (some ["text"])]
    ∧ (interactiveSend true (OutboundEvent.itemUserMessage "")).transport
        = [OutboundEvent.itemUserMessage ""] :=
  ⟨rfl, rfl⟩

/-- C9 (amended): the user-message constructors perform no validation —
for every text, empty included, they construct the two-message sequence
unchanged; the only empty-input rejection in the repository is the
interactive CLI read loop, which re-prompts on input that trims to
empty instead of composing a message. -/
theorem user_message_no_validation :
    (∀ text, sendMessage text
        = [OutboundEvent.itemUserMessage text, OutboundEvent.responseCreate (some ["text"])])
    ∧ (∀ text, sendTextMessage text
        = [OutboundEvent.itemUserMessage text, OutboundEvent.responseCreate (some ["text"])])
    ∧ rlOnLine "" = CLIAction.prompt
    ∧ rlOnLine "   " = CLIAction.prompt :=
  ⟨fun _ => rfl, fun _ => rfl, rfl, by decide⟩

/-- C10 counterexample: at the location `constructor`, which is none of
the three table keys, `weatherData["constructor"] || default` yields the
`Object` constructor inherited through the prototype chain — a truthy
function, not the fixed default entry — so "for every other location it
returns the fixed default" fails. -/
theorem getWeather_prototype_counterexample :
    getWeather "constructor" = WeatherResult.protoMember "constructor"
    ∧ getWeather "constructor"
        ≠ WeatherResult.weather { temperature := 18, condition := "未知", humidity := 50 } :=
  ⟨rfl, by decide⟩

/-- C10 (amended): `getWeather` is a total, deterministic function on
location strings: `北京`, `上海` and `深圳` map to their fixed table
entries; a location naming an `Object.prototype` member (`constructor`,
`toString`, `__proto__`, `valueOf`, `hasOwnProperty`, ...) returns that
inherited truthy member, because `weatherData[location]` consults the
prototype chain; every other location maps to the fixed default
`\x7btemperature: 18, condition: '未知', humidity: 50\x7d`, and the
function never throws and never returns an absent value. -/
theorem getWeather_table_amended :
    getWeather "北京" = WeatherResult.weather { temperature := 15, condition := "晴朗", humidity := 45 }
    ∧ getWeather "上海" = WeatherResult.weather { temperature := 20, condition := "多云", humidity := 60 }
    ∧ getWeather "深圳" = WeatherResult.weather { temperature := 25, condition := "小雨", humidity := 75 }
    ∧ (∀ loc : String, loc ∈ objectProtoMembers →
        getWeather loc = WeatherResult.protoMember loc)
    ∧ (∀ loc : String, loc ≠ "北京" → loc ≠ "上海" → loc ≠ "深圳" →
        loc ∉ objectProtoMembers →
        getWeather loc
          = WeatherResult.weather { temperature := 18, condition := "未知", humidity := 50 }) := by
  refine ⟨rfl, rfl, rfl, ?_, ?_⟩
  · intro loc h
    fin_cases h <;> rfl
  · intro loc h1 h2 h3 h4
    simp [getWeather, h1, h2, h3, h4]

/-- C10 witness: `toString` names a prototype member and returns it;
`广州` is neither a table key nor a prototype member and gets the
default entry. -/
theorem getWeather_table_amended_witness :
    ("toString" : String) ∈ objectProtoMembers
    ∧ getWeather "toString" = WeatherResult.protoMember "toString"
    ∧ ("广州" : String) ∉ objectProtoMembers
    ∧ getWeather "广州"
        = WeatherResult.weather { temperature := 18, condition := "未知", humidity := 50 } :=
  ⟨by decide, getWeather_table_amended.2.2.2.1 "toString" (by decide), by decide,
   getWeather_table_amended.2.2.2.2 "广州" (by decide) (by decide) (by decide) (by decide)⟩

end WandaRealtime
